import Mathlib

/-!
Verification of the tool-calling conversation orchestrator in
`src/backend/ai_generator.py` (class `AIGenerator`).

The embedding is shallow: every Python construct used by the orchestrator is
translated into a Lean definition.

* Dictionaries passed to and from tools become association lists
  `List (String × Value)` over a small inductive `Value` type.
* The Gemini SDK objects (`types.Part`, `types.Content`,
  `types.FunctionDeclaration`, `types.Tool`, `types.GenerateContentConfig`)
  become Lean structures with the same fields.
* A provider response is modelled by its `text` accessor and its list of
  candidates; `function_calls` is derived from the first candidate's parts,
  as the SDK derives it.
* The provider itself is a parameter: a function from (contents, config) to a
  response.  The executor (`tool_manager.execute_tool`) is a function that may
  fail, modelling a raised Python exception with `Except.error`.
* `generate_response` is instrumented: besides its answer (an
  `Except String (Option String)`, where `Except.error` models an uncaught
  exception) it returns the ordered list of provider calls it issued and the
  ordered list of executor invocations it made, so that claims about call
  counts and invocation order are statable.
-/

namespace RagChatbot

/-- Values carried in tool arguments and tool results (Python objects at the
orchestrator's boundary, treated as opaque data). -/
inductive Value where
  | str (s : String)
  | num (n : Int)
  | bool (b : Bool)
  deriving DecidableEq, Repr

/-- A keyword-argument mapping (Python dict), as an association list. -/
abbrev Args := List (String × Value)

/-- A tool-call request produced by the model: `fn_call.name` and
`fn_call.args` in the source. -/
structure FunctionCall where
  name : String
  args : Args
  deriving DecidableEq, Repr

/-- One part of a conversation turn (`types.Part`): plain text, a function
call emitted by the model, or a function response sent back to the model
(`types.Part.from_function_response(name=..., response=...)`). -/
inductive Part where
  | text (s : String)
  | functionCall (name : String) (args : Args)
  | functionResponse (name : String) (response : Args)
  deriving DecidableEq, Repr

/-- A conversation turn (`types.Content`): a role and an ordered list of
parts. -/
structure Content where
  role : String
  parts : List Part
  deriving DecidableEq, Repr

/-- A tool definition dict as consumed by `_build_gemini_tools`: keys
`"name"`, `"description"`, `"parameters"`. -/
structure ToolDef where
  name : String
  description : String
  parameters : Value
  deriving DecidableEq, Repr

/-- `types.FunctionDeclaration(name=..., description=..., parameters=...)`. -/
structure FunctionDeclaration where
  name : String
  description : String
  parameters : Value
  deriving DecidableEq, Repr

/-- `types.Tool(function_declarations=...)`. -/
structure Tool where
  function_declarations : List FunctionDeclaration
  deriving DecidableEq, Repr

/-- `types.GenerateContentConfig` as built by `generate_response`:
`system_instruction`, `temperature`, `max_output_tokens`, and the `tools`
attribute that is `None` unless assigned. -/
structure GenerateContentConfig where
  system_instruction : String
  temperature : Nat
  max_output_tokens : Nat
  tools : Option (List Tool)
  deriving DecidableEq, Repr

/-- A provider response: the `.text` accessor (absent when the response has no
text) and the list of candidate turns (`response.candidates`, each candidate
abbreviated to its `.content`). -/
structure Response where
  text : Option String
  candidates : List Content
  deriving DecidableEq, Repr

/-- Extract the function call carried by a part, if any. -/
def Part.asFunctionCall : Part → Option FunctionCall
  | .functionCall n a => some ⟨n, a⟩
  | _ => none

/-- `response.function_calls`: the SDK derives this list from the parts of the
first candidate; it is empty when there is no candidate or no function-call
part. -/
def Response.function_calls (r : Response) : List FunctionCall :=
  match r.candidates with
  | [] => []
  | c :: _ => c.parts.filterMap Part.asFunctionCall

/-- The model provider (`self.client.models.generate_content`), abstracted as
a function from the request's contents and config to a response. -/
abbrev Provider := List Content → GenerateContentConfig → Response

/-- The tool executor (`tool_manager.execute_tool`): given a tool name and
keyword arguments it returns a result value; `Except.error` models a raised
Python exception. -/
abbrev Executor := String → Args → Except String Value

/-- The static system prompt `AIGenerator.SYSTEM_PROMPT`, verbatim (including
the mojibake sequence on the no-meta-commentary line). -/
def SYSTEM_PROMPT : String :=
  " You are an AI assistant specialized in course materials and educational content with access to a comprehensive search tool for course information.\n\nSearch Tool Usage:\n- Use the search tool **only** for questions about specific course content or detailed educational materials\n- **One search per query maximum**\n- Synthesize search results into accurate, fact-based responses\n- If search yields no results, state this clearly without offering alternatives\n\nResponse Protocol:\n- **General knowledge questions**: Answer using existing knowledge without searching\n- **Course-specific questions**: Search first, then answer\n- **No meta-commentary**:\n - Provide direct answers only â€” no reasoning process, search explanations, or question-type analysis\n - Do not mention \"based on the search results\"\n\n\nAll responses must be:\n1. **Brief, Concise and focused** - Get to the point quickly\n2. **Educational** - Maintain instructional value\n3. **Clear** - Use accessible language\n4. **Example-supported** - Include relevant examples when they aid understanding\nProvide only the direct answer to what was asked.\n"

/-- Truthiness of an optional string, as Python evaluates
`if conversation_history`: `None` and the empty string are falsy. -/
def strTruthy : Option String → Bool
  | none => false
  | some s => !(s == "")

/-- Truthiness of an optional list, as Python evaluates `if tools`: `None`
and the empty list are falsy. -/
def listTruthy {α : Type} : Option (List α) → Bool
  | none => false
  | some xs => !xs.isEmpty

/-- The system-instruction construction inlined at lines 66-70 of
`generate_response`, parametrised over the base instruction (the source
always passes `SYSTEM_PROMPT`): the f-string
`f"{SYSTEM_PROMPT}\n\nPrevious conversation:\n{conversation_history}"`
when `conversation_history` is truthy, the base prompt otherwise. -/
def buildSystemInstruction (base : String) (conversation_history : Option String) : String :=
  if strTruthy conversation_history then
    base ++ "\n\nPrevious conversation:\n" ++ conversation_history.getD ""
  else
    base

/-- `_build_gemini_tools`: convert tool definition dicts to a single
`types.Tool` holding one `FunctionDeclaration` per definition. -/
def build_gemini_tools (tools : List ToolDef) : List Tool :=
  [⟨tools.map fun tool_def => ⟨tool_def.name, tool_def.description, tool_def.parameters⟩⟩]

/-- The config built at lines 73-81 of `generate_response`: temperature 0,
`max_output_tokens` 800, the built system instruction, and the Gemini tools
attached only when `tools` is truthy (`if tools:`). -/
def first_config (conversation_history : Option String) (tools : Option (List ToolDef)) :
    GenerateContentConfig :=
  let config : GenerateContentConfig :=
    { system_instruction := buildSystemInstruction SYSTEM_PROMPT conversation_history
      temperature := 0
      max_output_tokens := 800
      tools := none }
  if listTruthy tools then
    { config with tools := some (build_gemini_tools (tools.getD [])) }
  else
    config

/-- The initial message list built at line 84: a single user turn holding the
query as one text part. -/
def initial_contents (query : String) : List Content :=
  [{ role := "user", parts := [Part.text query] }]

/-- The tool-execution loop at lines 117-128: invoke the executor for each
function call in order; collect one `functionResponse` part per call, with
the executor's return value wrapped as `{"result": tool_result}`.  Returns
the list of executor invocations actually made together with the outcome: an
uncaught executor exception (`Except.error`) stops the loop, as the source
has no `try`/`except` around `execute_tool`. -/
def execute_tool_calls (tool_manager : Executor) :
    List FunctionCall → List FunctionCall × Except String (List Part)
  | [] => ([], Except.ok [])
  | fn_call :: rest =>
    match tool_manager fn_call.name fn_call.args with
    | Except.error e => ([fn_call], Except.error e)
    | Except.ok tool_result =>
      let (invoked, res) := execute_tool_calls tool_manager rest
      (fn_call :: invoked,
        match res with
        | Except.error e => Except.error e
        | Except.ok parts =>
          Except.ok (Part.functionResponse fn_call.name [("result", tool_result)] :: parts))

/-- The instrumented outcome of a `generate_response` run: the returned
answer (or uncaught exception), the provider calls issued (contents and
config of each, in order), and the executor invocations made (in order). -/
structure GenResult where
  result : Except String (Option String)
  providerCalls : List (List Content × GenerateContentConfig)
  executorCalls : List FunctionCall
  deriving Repr

/-- `_handle_tool_execution`: append the model's first-candidate turn to the
history (`initial_response.candidates[0].content`, an `IndexError` if there
is no candidate), execute all tool calls, append the results as one user
turn, clear `config.tools`, and issue the final provider call, returning its
text. -/
def handle_tool_execution (provider : Provider) (initial_response : Response)
    (contents : List Content) (config : GenerateContentConfig)
    (tool_manager : Executor) : GenResult :=
  match initial_response.candidates with
  | [] =>
    { result := Except.error "IndexError: list index out of range"
      providerCalls := []
      executorCalls := [] }
  | cand :: _ =>
    let contents := contents ++ [cand]
    let (invoked, res) := execute_tool_calls tool_manager initial_response.function_calls
    match res with
    | Except.error e =>
      { result := Except.error e, providerCalls := [], executorCalls := invoked }
    | Except.ok tool_response_parts =>
      let contents := contents ++ [{ role := "user", parts := tool_response_parts }]
      let config := { config with tools := none }
      let final_response := provider contents config
      { result := Except.ok final_response.text
        providerCalls := [(contents, config)]
        executorCalls := invoked }

/-- `generate_response`: build the system instruction and config, issue the
first provider call, and either hand off to `_handle_tool_execution` (when
the response carries function calls and a `tool_manager` was supplied) or
return the first response's text directly. -/
def generate_response (provider : Provider) (query : String)
    (conversation_history : Option String) (tools : Option (List ToolDef))
    (tool_manager : Option Executor) : GenResult :=
  let config := first_config conversation_history tools
  let contents := initial_contents query
  let response := provider contents config
  let direct : GenResult :=
    { result := Except.ok response.text
      providerCalls := [(contents, config)]
      executorCalls := [] }
  match tool_manager with
  | none => direct
  | some tm =>
    if response.function_calls.isEmpty then
      direct
    else
      let r := handle_tool_execution provider response contents config tm
      { result := r.result
        providerCalls := (contents, config) :: r.providerCalls
        executorCalls := r.executorCalls }

/-- Modelled from the spec: the `ToolManager` behind `tool_manager` is
repository code outside `src/`.  Per the spec's ToolExecutor interface it
"may fail, in which case the orchestrator substitutes the failure
description as the result value", and a tool name absent from the catalog is
"surfaced as a ToolExecutionFailure-style local recovery" because "the
executor itself turns the lookup failure into a result".  So a lookup miss
yields a not-found description and a failure raised by the underlying tool
implementation is converted into its description as the result value. -/
def tool_manager_value (impls : List (String × (Args → Except String Value)))
    (name : String) (args : Args) : Value :=
  match impls.lookup name with
  | none => Value.str ("Tool " ++ name ++ " not found")
  | some impl =>
    match impl args with
    | Except.ok v => v
    | Except.error e => Value.str e

/-- Modelled from the spec: the executor exposed by the `ToolManager`; it
never raises, returning `tool_manager_value` for every invocation. -/
def tool_manager_execute (impls : List (String × (Args → Except String Value))) : Executor :=
  fun name args => Except.ok (tool_manager_value impls name args)

/-! ## Concrete fixtures used by witnesses and counterexamples -/

/-- A provider that returns the same response to every call. -/
def const_provider (r : Response) : Provider := fun _ _ => r

/-- A provider that answers the initial one-turn request with `r1` and any
longer accumulated history with `r2`. -/
def scripted_provider (r1 r2 : Response) : Provider :=
  fun contents _ => if contents.length ≤ 1 then r1 else r2

/-- A plain text response with no function call. -/
def answer_response : Response :=
  { text := some "Recursion is a technique where a function calls itself."
    candidates := [{ role := "model"
                     parts := [Part.text "Recursion is a technique where a function calls itself."] }] }

/-- The first tool-call request emitted in the two-call fixture. -/
def search_request : FunctionCall :=
  ⟨"search_course_content", [("course", Value.str "X"), ("lesson", Value.num 3)]⟩

/-- The second tool-call request emitted in the two-call fixture. -/
def outline_request : FunctionCall :=
  ⟨"get_course_outline", [("course", Value.str "X")]⟩

/-- A first response carrying two tool-call requests and no text. -/
def tool_call_response : Response :=
  { text := none
    candidates := [{ role := "model"
                     parts := [Part.functionCall "search_course_content"
                                 [("course", Value.str "X"), ("lesson", Value.num 3)],
                               Part.functionCall "get_course_outline"
                                 [("course", Value.str "X")]] }] }

/-- An executor that succeeds on every invocation. -/
def ok_executor : Executor := fun _ _ => Except.ok (Value.str "ok")

/-- A tool implementation that raises on every invocation. -/
def failing_search : Args → Except String Value := fun _ => Except.error "NotFoundError"

/-- A tool implementation that succeeds on every invocation. -/
def ok_outline : Args → Except String Value := fun _ => Except.ok (Value.str "outline")

/-- A tool table whose search tool raises and whose outline tool succeeds. -/
def failing_impls : List (String × (Args → Except String Value)) :=
  [("search_course_content", failing_search), ("get_course_outline", ok_outline)]

/-! ## Helper lemmas characterizing the paths through the orchestrator -/

theorem isEmpty_false {α : Type} {l : List α} (h : l ≠ []) : l.isEmpty = false := by
  cases l with
  | nil => exact absurd rfl h
  | cons a l => rfl

/-- A response with at least one function call has at least one candidate,
since `function_calls` is derived from the first candidate's parts. -/
theorem candidates_of_function_calls {r : Response} (h : r.function_calls ≠ []) :
    ∃ c cs, r.candidates = c :: cs := by
  cases hc : r.candidates with
  | nil => exact absurd (by simp [Response.function_calls, hc]) h
  | cons c cs => exact ⟨c, cs, rfl⟩

/-- With no executor supplied, `generate_response` takes the direct path. -/
theorem generate_no_executor (p : Provider) (q : String) (hist : Option String)
    (tools : Option (List ToolDef)) :
    generate_response p q hist tools none =
      { result := Except.ok ((p (initial_contents q) (first_config hist tools)).text)
        providerCalls := [(initial_contents q, first_config hist tools)]
        executorCalls := [] } := rfl

/-- With an executor supplied but no function call in the first response,
`generate_response` takes the direct path. -/
theorem generate_no_calls (p : Provider) (q : String) (hist : Option String)
    (tools : Option (List ToolDef)) (tm : Executor)
    (h : (p (initial_contents q) (first_config hist tools)).function_calls = []) :
    generate_response p q hist tools (some tm) =
      { result := Except.ok ((p (initial_contents q) (first_config hist tools)).text)
        providerCalls := [(initial_contents q, first_config hist tools)]
        executorCalls := [] } := by
  simp [generate_response, h]

/-- With an executor supplied and function calls in the first response,
`generate_response` hands off to `_handle_tool_execution`, prepending the
first provider call to the trace. -/
theorem generate_tool_round (p : Provider) (q : String) (hist : Option String)
    (tools : Option (List ToolDef)) (tm : Executor)
    (h : (p (initial_contents q) (first_config hist tools)).function_calls ≠ []) :
    generate_response p q hist tools (some tm) =
      { result := (handle_tool_execution p (p (initial_contents q) (first_config hist tools))
          (initial_contents q) (first_config hist tools) tm).result
        providerCalls := (initial_contents q, first_config hist tools) ::
          (handle_tool_execution p (p (initial_contents q) (first_config hist tools))
            (initial_contents q) (first_config hist tools) tm).providerCalls
        executorCalls := (handle_tool_execution p (p (initial_contents q) (first_config hist tools))
          (initial_contents q) (first_config hist tools) tm).executorCalls } := by
  simp [generate_response, isEmpty_false h]

/-- `_handle_tool_execution` when every tool execution succeeds: the model's
first-candidate turn and then a single user turn holding the result parts are
appended, tools are cleared from the config, and the second provider call's
text is returned. -/
theorem handle_ok (p : Provider) (r : Response) (contents : List Content)
    (config : GenerateContentConfig) (tm : Executor) (c : Content) (cs : List Content)
    (invoked : List FunctionCall) (parts : List Part)
    (hc : r.candidates = c :: cs)
    (he : execute_tool_calls tm r.function_calls = (invoked, Except.ok parts)) :
    handle_tool_execution p r contents config tm =
      { result := Except.ok ((p (contents ++ [c, { role := "user", parts := parts }])
          { config with tools := none }).text)
        providerCalls := [(contents ++ [c, { role := "user", parts := parts }],
          { config with tools := none })]
        executorCalls := invoked } := by
  simp [handle_tool_execution, hc, he]

/-- `_handle_tool_execution` when the executor raises: the exception
propagates and no second provider call is made. -/
theorem handle_error (p : Provider) (r : Response) (contents : List Content)
    (config : GenerateContentConfig) (tm : Executor) (c : Content) (cs : List Content)
    (invoked : List FunctionCall) (e : String)
    (hc : r.candidates = c :: cs)
    (he : execute_tool_calls tm r.function_calls = (invoked, Except.error e)) :
    handle_tool_execution p r contents config tm =
      { result := Except.error e, providerCalls := [], executorCalls := invoked } := by
  simp [handle_tool_execution, hc, he]

/-- The tool-execution loop under pointwise success: every request is
executed, in order, and the collected parts are the wrapped results in the
same order, each tagged with its request's tool name. -/
theorem execute_tool_calls_ok (tm : Executor) :
    ∀ reqs : List FunctionCall,
    (∀ fc ∈ reqs, ∃ v, tm fc.name fc.args = Except.ok v) →
    ∃ parts : List Part,
      execute_tool_calls tm reqs = (reqs, Except.ok parts) ∧
      parts.length = reqs.length ∧
      ∀ i fc, reqs.get? i = some fc →
        ∃ v, tm fc.name fc.args = Except.ok v ∧
          parts.get? i = some (Part.functionResponse fc.name [("result", v)])
  | [], _ => ⟨[], rfl, rfl, by intro i fc h; simp at h⟩
  | fn_call :: rest, h => by
    obtain ⟨v, hv⟩ := h fn_call (List.mem_cons_self _ _)
    obtain ⟨parts, hp, hlen, hidx⟩ :=
      execute_tool_calls_ok tm rest (fun fc hfc => h fc (List.mem_cons_of_mem _ hfc))
    refine ⟨Part.functionResponse fn_call.name [("result", v)] :: parts, ?_, by simp [hlen], ?_⟩
    · simp [execute_tool_calls, hv, hp]
    · intro i fc hi
      match i with
      | 0 =>
        simp only [List.get?] at hi
        cases hi
        exact ⟨v, hv, rfl⟩
      | Nat.succ j =>
        simp only [List.get?] at hi ⊢
        exact hidx j fc hi

/-- The tool-execution loop run with the spec-modelled `ToolManager`: it
never raises, so every request is executed and each part wraps
`tool_manager_value` for that request. -/
theorem execute_tool_calls_tool_manager
    (impls : List (String × (Args → Except String Value))) (reqs : List FunctionCall) :
    execute_tool_calls (tool_manager_execute impls) reqs =
      (reqs, Except.ok (reqs.map fun fc =>
        Part.functionResponse fc.name [("result", tool_manager_value impls fc.name fc.args)])) := by
  induction reqs with
  | nil => rfl
  | cons fc rest ih => simp [execute_tool_calls, tool_manager_execute, ih]

/-! ## Claims about the system-instruction builder (C6, C8, C9) -/

/-- C6 (counterexample): the claim "when history is present, the built system
instruction is the base instruction concatenated with a delimited
previous-conversation section containing the history string verbatim" fails
at the concrete input history = `some ""`: the code branches on Python
truthiness, so the empty-string history yields the bare base instruction,
not the concatenation the claim requires. -/
theorem history_empty_counterexample :
    buildSystemInstruction "B" (some "") = "B" ∧
    buildSystemInstruction "B" (some "") ≠ "B" ++ "\n\nPrevious conversation:\n" ++ "" := by
  constructor
  · rfl
  · decide

/-- C6 (amended): for every base instruction, when history is absent the
built system instruction equals the base instruction unchanged, and when
history is present and non-empty it is the base instruction concatenated
with the delimited previous-conversation section containing the history
string verbatim, with no truncation. -/
theorem system_instruction_amended (base h : String) :
    buildSystemInstruction base none = base ∧
    (h ≠ "" → buildSystemInstruction base (some h) = base ++ "\n\nPrevious conversation:\n" ++ h) := by
  refine ⟨rfl, fun hne => ?_⟩
  simp [buildSystemInstruction, strTruthy, hne]

/-- C6 (witness): the amended theorem at base `"B"` and history `"H"`. -/
theorem system_instruction_amended_witness :
    buildSystemInstruction "B" none = "B" ∧
    buildSystemInstruction "B" (some "H") = "B" ++ "\n\nPrevious conversation:\n" ++ "H" :=
  ⟨(system_instruction_amended "B" "H").1,
   (system_instruction_amended "B" "H").2 (by decide)⟩

/-- C8: the system-instruction builder is a pure, deterministic function:
with history absent it yields exactly the base instruction, and two builds
from the same inputs yield identical output (it is a mathematical function
with no side effects). -/
theorem prompt_builder_pure (base : String) (h : Option String) :
    buildSystemInstruction base none = base ∧
    buildSystemInstruction base h = buildSystemInstruction base h :=
  ⟨rfl, rfl⟩

/-- C9: a history supplied as the empty string is treated exactly like an
absent history — the built system instruction is the bare system prompt, and
the whole first-call config is the same as with no history at all (the code
branches on the truthiness of `conversation_history`, not its presence). -/
theorem empty_history_as_absent :
    buildSystemInstruction SYSTEM_PROMPT (some "") = SYSTEM_PROMPT ∧
    (∀ base : String, buildSystemInstruction base (some "") = buildSystemInstruction base none) ∧
    (∀ tools, first_config (some "") tools = first_config none tools) :=
  ⟨rfl, fun _ => rfl, fun _ => rfl⟩

/-! ## Claims about the orchestration protocol (C2, C3, C5, C7) -/

/-- Every run issues the initial provider call first: the head of the trace
is the one-turn user query with the first-call config. -/
theorem generate_first_call (p : Provider) (q : String) (hist : Option String)
    (tools : Option (List ToolDef)) (tm : Option Executor) :
    (generate_response p q hist tools tm).providerCalls.get? 0 =
      some (initial_contents q, first_config hist tools) := by
  cases tm with
  | none => rfl
  | some tm' =>
    by_cases h : (p (initial_contents q) (first_config hist tools)).function_calls = []
    · rw [generate_no_calls p q hist tools tm' h]
      rfl
    · rw [generate_tool_round p q hist tools tm' h]
      rfl

/-- C2: the decision point. If the first response carries tool-call requests
and an executor was supplied, the orchestrator enters the tool round (hands
off to `_handle_tool_execution`, which executes tools and issues the
follow-up call); otherwise — no executor, or no tool-call request — it
returns the first response's text immediately as a normal value, with one
provider call, no executor invocation and no hard failure (tool calls are
silently not honored when no executor was supplied). -/
theorem decision_point_tie_break (p : Provider) (q : String) (hist : Option String)
    (tools : Option (List ToolDef)) (tm : Option Executor) :
    (tm = none ∨ (p (initial_contents q) (first_config hist tools)).function_calls = [] →
      generate_response p q hist tools tm =
        { result := Except.ok ((p (initial_contents q) (first_config hist tools)).text)
          providerCalls := [(initial_contents q, first_config hist tools)]
          executorCalls := [] }) ∧
    (∀ tm', tm = some tm' →
      (p (initial_contents q) (first_config hist tools)).function_calls ≠ [] →
      generate_response p q hist tools tm =
        { result := (handle_tool_execution p
            (p (initial_contents q) (first_config hist tools))
            (initial_contents q) (first_config hist tools) tm').result
          providerCalls := (initial_contents q, first_config hist tools) ::
            (handle_tool_execution p
              (p (initial_contents q) (first_config hist tools))
              (initial_contents q) (first_config hist tools) tm').providerCalls
          executorCalls := (handle_tool_execution p
            (p (initial_contents q) (first_config hist tools))
            (initial_contents q) (first_config hist tools) tm').executorCalls }) := by
  constructor
  · rintro (rfl | h)
    · exact generate_no_executor p q hist tools
    · cases tm with
      | none => exact generate_no_executor p q hist tools
      | some tm' => exact generate_no_calls p q hist tools tm' h
  · rintro tm' rfl h
    exact generate_tool_round p q hist tools tm' h

/-- C2 (witness): both branches of the decision point at concrete inputs — a
response with tool-call requests but no executor supplied falls back to the
direct answer; with an executor supplied it enters the tool round. -/
theorem decision_point_tie_break_witness :
    generate_response (const_provider tool_call_response) "q2a" none none none =
      { result := Except.ok ((const_provider tool_call_response (initial_contents "q2a")
          (first_config none none)).text)
        providerCalls := [(initial_contents "q2a", first_config none none)]
        executorCalls := [] } ∧
    generate_response (const_provider tool_call_response) "q2b" none none (some ok_executor) =
      { result := (handle_tool_execution (const_provider tool_call_response)
          (const_provider tool_call_response (initial_contents "q2b") (first_config none none))
          (initial_contents "q2b") (first_config none none) ok_executor).result
        providerCalls := (initial_contents "q2b", first_config none none) ::
          (handle_tool_execution (const_provider tool_call_response)
            (const_provider tool_call_response (initial_contents "q2b") (first_config none none))
            (initial_contents "q2b") (first_config none none) ok_executor).providerCalls
        executorCalls := (handle_tool_execution (const_provider tool_call_response)
          (const_provider tool_call_response (initial_contents "q2b") (first_config none none))
          (initial_contents "q2b") (first_config none none) ok_executor).executorCalls } :=
  ⟨(decision_point_tie_break (const_provider tool_call_response) "q2a" none none none).1
      (Or.inl rfl),
   (decision_point_tie_break (const_provider tool_call_response) "q2b" none none
      (some ok_executor)).2 ok_executor rfl (by decide)⟩

/-- C3: tools are attached to at most the first provider call.  Every run
issues at most two provider calls; every call after the first has tools
disabled in its config; and whenever a second call exists, its text is
returned as the final answer regardless of its content (no further tool
round is attempted). -/
theorem at_most_two_provider_calls (p : Provider) (q : String) (hist : Option String)
    (tools : Option (List ToolDef)) (tm : Option Executor) :
    (generate_response p q hist tools tm).providerCalls.length ≤ 2 ∧
    (∀ pc ∈ (generate_response p q hist tools tm).providerCalls.drop 1, pc.2.tools = none) ∧
    (∀ pc, (generate_response p q hist tools tm).providerCalls.get? 1 = some pc →
      (generate_response p q hist tools tm).result = Except.ok ((p pc.1 pc.2).text)) := by
  cases tm with
  | none =>
    rw [generate_no_executor]
    exact ⟨by simp, by simp, by intro pc hpc; simp at hpc⟩
  | some tm' =>
    by_cases h : (p (initial_contents q) (first_config hist tools)).function_calls = []
    · rw [generate_no_calls p q hist tools tm' h]
      exact ⟨by simp, by simp, by intro pc hpc; simp at hpc⟩
    · obtain ⟨c, cs, hc⟩ := candidates_of_function_calls h
      rw [generate_tool_round p q hist tools tm' h]
      rcases he : execute_tool_calls tm'
          (p (initial_contents q) (first_config hist tools)).function_calls with ⟨invoked, res⟩
      cases res with
      | error e =>
        rw [handle_error p _ _ _ _ c cs invoked e hc he]
        exact ⟨by simp, by simp, by intro pc hpc; simp at hpc⟩
      | ok parts =>
        rw [handle_ok p _ _ _ _ c cs invoked parts hc he]
        refine ⟨by simp, ?_, ?_⟩
        · intro pc hpc
          simp only [List.drop, List.mem_singleton] at hpc
          rw [hpc]
        · intro pc hpc
          simp only [List.get?] at hpc
          cases hpc
          rfl

/-- C3 (witness): the bound applied at a concrete tool-round run. -/
theorem at_most_two_provider_calls_witness :
    (generate_response (scripted_provider tool_call_response answer_response) "q3" none none
      (some ok_executor)).providerCalls.length ≤ 2 ∧
    ∀ pc ∈ (generate_response (scripted_provider tool_call_response answer_response) "q3" none
      none (some ok_executor)).providerCalls.drop 1, pc.2.tools = none :=
  ⟨(at_most_two_provider_calls (scripted_provider tool_call_response answer_response) "q3"
      none none (some ok_executor)).1,
   (at_most_two_provider_calls (scripted_provider tool_call_response answer_response) "q3"
      none none (some ok_executor)).2.1⟩

/-- C5: with no catalog supplied, and a provider that (like the real one)
emits tool-call requests only when tools are declared in the config,
`generate_response` issues exactly one provider call and returns that call's
text unchanged, invoking no tool. -/
theorem no_catalog_single_call (p : Provider) (q : String) (hist : Option String)
    (tm : Option Executor)
    (hp : ∀ msgs cfg, cfg.tools = none → (p msgs cfg).function_calls = []) :
    generate_response p q hist none tm =
      { result := Except.ok ((p (initial_contents q) (first_config hist none)).text)
        providerCalls := [(initial_contents q, first_config hist none)]
        executorCalls := [] } := by
  have h : (p (initial_contents q) (first_config hist none)).function_calls = [] :=
    hp _ _ rfl
  cases tm with
  | none => exact generate_no_executor p q hist none
  | some tm' => exact generate_no_calls p q hist none tm' h

/-- C5 (witness): the single-call behaviour at a concrete query with no
catalog, an executor supplied, and a well-behaved provider. -/
theorem no_catalog_single_call_witness :
    generate_response (const_provider answer_response) "What is recursion?" none none
      (some ok_executor) =
      { result := Except.ok ((const_provider answer_response
          (initial_contents "What is recursion?") (first_config none none)).text)
        providerCalls := [(initial_contents "What is recursion?", first_config none none)]
        executorCalls := [] } :=
  no_catalog_single_call (const_provider answer_response) "What is recursion?" none
    (some ok_executor) (fun _ _ _ => rfl)

/-- C7 (counterexample): the claim "tool definitions attached as callable
tools if and only if a catalog was supplied" fails at the concrete input
catalog = `some []`: a catalog was supplied, yet the first call's config has
no tools attached (`config.tools` stays `None`), because the code branches
on Python truthiness (`if tools:`) and the empty list is falsy. -/
theorem empty_catalog_counterexample :
    (generate_response (const_provider answer_response) "q7" none (some []) none).providerCalls.map
        (fun pc => pc.2.tools) = [none] ∧
    (none : Option (List Tool)) ≠ some (build_gemini_tools []) := by
  exact ⟨rfl, by simp⟩

/-- C7 (amended): the first provider call's config has temperature 0, the
fixed 800 max-output-token cap, and the catalog's tool definitions attached
as callable tools if and only if a non-empty catalog was supplied (an empty
catalog behaves like an absent one); each definition is mapped 1:1
preserving name, description, and parameter schema. -/
theorem first_call_config_amended (p : Provider) (q : String) (hist : Option String)
    (tools : Option (List ToolDef)) (tm : Option Executor) :
    (generate_response p q hist tools tm).providerCalls.get? 0 =
      some (initial_contents q, first_config hist tools) ∧
    (first_config hist tools).temperature = 0 ∧
    (first_config hist tools).max_output_tokens = 800 ∧
    (listTruthy tools = true →
      (first_config hist tools).tools = some (build_gemini_tools (tools.getD []))) ∧
    (listTruthy tools = false → (first_config hist tools).tools = none) ∧
    (∀ ts : List ToolDef, ∀ tl, (build_gemini_tools ts).get? 0 = some tl →
      tl.function_declarations.length = ts.length ∧
      ∀ i td, ts.get? i = some td →
        ∃ d, tl.function_declarations.get? i = some d ∧
          d.name = td.name ∧ d.description = td.description ∧ d.parameters = td.parameters) := by
  refine ⟨generate_first_call p q hist tools tm, ?_, ?_, ?_, ?_, ?_⟩
  · by_cases h : listTruthy tools <;> simp [first_config, h]
  · by_cases h : listTruthy tools <;> simp [first_config, h]
  · intro h; simp [first_config, h]
  · intro h; simp [first_config, h]
  · intro ts tl htl
    simp only [build_gemini_tools, List.get?] at htl
    cases htl
    refine ⟨by simp, ?_⟩
    intro i td hi
    have hi' : ts[i]? = some td := by rw [← List.get?_eq_getElem?]; exact hi
    refine ⟨⟨td.name, td.description, td.parameters⟩, ?_, rfl, rfl, rfl⟩
    rw [List.get?_eq_getElem?, List.getElem?_map, hi']
    rfl

/-- C7 (witness): the amended config claim at a concrete run with a
one-entry catalog. -/
theorem first_call_config_amended_witness :
    (first_config none (some [⟨"search_course_content", "Searches course content",
        Value.str "schema"⟩])).temperature = 0 ∧
    (first_config none (some [⟨"search_course_content", "Searches course content",
        Value.str "schema"⟩])).tools =
      some (build_gemini_tools [⟨"search_course_content", "Searches course content",
        Value.str "schema"⟩]) :=
  ⟨(first_call_config_amended (const_provider answer_response) "q7w" none
      (some [⟨"search_course_content", "Searches course content", Value.str "schema"⟩])
      none).2.1,
   (first_call_config_amended (const_provider answer_response) "q7w" none
      (some [⟨"search_course_content", "Searches course content", Value.str "schema"⟩])
      none).2.2.2.1 (by decide)⟩

/-! ## Claims about the tool round (C1, C4, C10) -/

/-- C4: for a first response carrying tool-call requests, with an executor
that succeeds on each of them, the executor is invoked once per request in
the order the model emitted them (the invocation trace equals the request
list), and the second provider call's history is the initial query followed
by the model's own turn and exactly one new user-role turn whose content is
one result part per request, in the same order, the i-th part tagged with
the i-th request's tool name. -/
theorem executor_order_preserved (p : Provider) (q : String) (hist : Option String)
    (tools : Option (List ToolDef)) (tm : Executor)
    (hfc : (p (initial_contents q) (first_config hist tools)).function_calls ≠ [])
    (hok : ∀ fc ∈ (p (initial_contents q) (first_config hist tools)).function_calls,
      ∃ v, tm fc.name fc.args = Except.ok v) :
    ∃ c parts,
      (p (initial_contents q) (first_config hist tools)).candidates.head? = some c ∧
      (generate_response p q hist tools (some tm)).executorCalls =
        (p (initial_contents q) (first_config hist tools)).function_calls ∧
      (generate_response p q hist tools (some tm)).providerCalls.get? 1 =
        some (initial_contents q ++ [c, { role := "user", parts := parts }],
          { first_config hist tools with tools := none }) ∧
      parts.length = (p (initial_contents q) (first_config hist tools)).function_calls.length ∧
      (∀ i fc,
        (p (initial_contents q) (first_config hist tools)).function_calls.get? i = some fc →
        ∃ payload, parts.get? i = some (Part.functionResponse fc.name payload)) := by
  obtain ⟨c, cs, hc⟩ := candidates_of_function_calls hfc
  obtain ⟨parts, he, hlen, hidx⟩ := execute_tool_calls_ok tm _ hok
  refine ⟨c, parts, by rw [hc]; rfl, ?_, ?_, hlen, ?_⟩
  · rw [generate_tool_round p q hist tools tm hfc, handle_ok p _ _ _ _ c cs _ parts hc he]
  · rw [generate_tool_round p q hist tools tm hfc, handle_ok p _ _ _ _ c cs _ parts hc he]
    rfl
  · intro i fc hi
    obtain ⟨v, _, hp⟩ := hidx i fc hi
    exact ⟨[("result", v)], hp⟩

/-- C4 (witness): a two-request round with a succeeding executor invokes the
executor exactly on the two requests, in emission order. -/
theorem executor_order_preserved_witness :
    (generate_response (scripted_provider tool_call_response answer_response) "q4" none none
      (some ok_executor)).executorCalls = [search_request, outline_request] := by
  obtain ⟨c, parts, -, h2, -, -, -⟩ :=
    executor_order_preserved (scripted_provider tool_call_response answer_response) "q4" none
      none ok_executor (by decide) (fun fc _ => ⟨Value.str "ok", rfl⟩)
  rw [h2]
  rfl

/-- C10: each tool-call result forwarded to the model is not the executor's
raw return value but that value wrapped in a one-key mapping under the key
"result": the i-th part of the forwarded user turn is a function response
whose payload is exactly `{"result": v}` for the value `v` the executor
returned for the i-th request. -/
theorem tool_results_wrapped (p : Provider) (q : String) (hist : Option String)
    (tools : Option (List ToolDef)) (tm : Executor)
    (hfc : (p (initial_contents q) (first_config hist tools)).function_calls ≠ [])
    (hok : ∀ fc ∈ (p (initial_contents q) (first_config hist tools)).function_calls,
      ∃ v, tm fc.name fc.args = Except.ok v) :
    ∃ c parts,
      (generate_response p q hist tools (some tm)).providerCalls.get? 1 =
        some (initial_contents q ++ [c, { role := "user", parts := parts }],
          { first_config hist tools with tools := none }) ∧
      ∀ i fc,
        (p (initial_contents q) (first_config hist tools)).function_calls.get? i = some fc →
        ∃ v, tm fc.name fc.args = Except.ok v ∧
          parts.get? i = some (Part.functionResponse fc.name [("result", v)]) := by
  obtain ⟨c, cs, hc⟩ := candidates_of_function_calls hfc
  obtain ⟨parts, he, _, hidx⟩ := execute_tool_calls_ok tm _ hok
  refine ⟨c, parts, ?_, hidx⟩
  rw [generate_tool_round p q hist tools tm hfc, handle_ok p _ _ _ _ c cs _ parts hc he]
  rfl

/-- C10 (witness): the wrapping claim at a concrete two-request round with
the always-succeeding executor. -/
theorem tool_results_wrapped_witness :
    ∃ c parts,
      (generate_response (scripted_provider tool_call_response answer_response) "q10" none none
        (some ok_executor)).providerCalls.get? 1 =
        some (initial_contents "q10" ++ [c, { role := "user", parts := parts }],
          { first_config none none with tools := none }) ∧
      ∀ i fc,
        (scripted_provider tool_call_response answer_response (initial_contents "q10")
          (first_config none none)).function_calls.get? i = some fc →
        ∃ v, ok_executor fc.name fc.args = Except.ok v ∧
          parts.get? i = some (Part.functionResponse fc.name [("result", v)]) :=
  tool_results_wrapped (scripted_provider tool_call_response answer_response) "q10" none none
    ok_executor (by decide) (fun fc _ => ⟨Value.str "ok", rfl⟩)

/-- C1: tool failure containment with the spec-modelled `ToolManager` as
executor.  When the first response carries tool-call requests and the
underlying implementation of the i-th requested tool raises a failure `e`,
the failure value is wrapped as that call's result content
(`{"result": e}`) and forwarded to the model in the follow-up turn, the
round is not aborted (both provider calls happen), and `generate_response`
returns the follow-up call's text as a normal value. -/
theorem tool_failure_contained (p : Provider) (q : String) (hist : Option String)
    (tools : Option (List ToolDef))
    (impls : List (String × (Args → Except String Value)))
    (i : Nat) (fc : FunctionCall) (impl : Args → Except String Value) (e : String)
    (hfc : (p (initial_contents q) (first_config hist tools)).function_calls ≠ [])
    (hi : (p (initial_contents q) (first_config hist tools)).function_calls.get? i = some fc)
    (hlook : impls.lookup fc.name = some impl)
    (hfail : impl fc.args = Except.error e) :
    ∃ c parts,
      (generate_response p q hist tools
        (some (tool_manager_execute impls))).providerCalls.length = 2 ∧
      (generate_response p q hist tools
        (some (tool_manager_execute impls))).providerCalls.get? 1 =
        some (initial_contents q ++ [c, { role := "user", parts := parts }],
          { first_config hist tools with tools := none }) ∧
      (generate_response p q hist tools (some (tool_manager_execute impls))).result =
        Except.ok ((p (initial_contents q ++ [c, { role := "user", parts := parts }])
          { first_config hist tools with tools := none }).text) ∧
      parts.get? i = some (Part.functionResponse fc.name [("result", Value.str e)]) := by
  obtain ⟨c, cs, hc⟩ := candidates_of_function_calls hfc
  have he := execute_tool_calls_tool_manager impls
    (p (initial_contents q) (first_config hist tools)).function_calls
  refine ⟨c, (p (initial_contents q) (first_config hist tools)).function_calls.map
    (fun fc => Part.functionResponse fc.name
      [("result", tool_manager_value impls fc.name fc.args)]), ?_, ?_, ?_, ?_⟩
  · rw [generate_tool_round p q hist tools _ hfc, handle_ok p _ _ _ _ c cs _ _ hc he]
    rfl
  · rw [generate_tool_round p q hist tools _ hfc, handle_ok p _ _ _ _ c cs _ _ hc he]
    rfl
  · rw [generate_tool_round p q hist tools _ hfc, handle_ok p _ _ _ _ c cs _ _ hc he]
  · have hi' : (p (initial_contents q) (first_config hist tools)).function_calls[i]? = some fc := by
      rw [← List.get?_eq_getElem?]; exact hi
    rw [List.get?_eq_getElem?, List.getElem?_map, hi']
    simp [tool_manager_value, hlook, hfail]

/-- C1 (witness): a concrete round in which the search tool's implementation
raises `NotFoundError` while the outline tool succeeds — both provider calls
happen and the final text answer is returned. -/
theorem tool_failure_contained_witness :
    (generate_response (scripted_provider tool_call_response answer_response) "q1" none none
      (some (tool_manager_execute failing_impls))).providerCalls.length = 2 ∧
    (generate_response (scripted_provider tool_call_response answer_response) "q1" none none
      (some (tool_manager_execute failing_impls))).result =
      Except.ok (some "Recursion is a technique where a function calls itself.") := by
  obtain ⟨c, parts, hlen, -, hres, -⟩ :=
    tool_failure_contained (scripted_provider tool_call_response answer_response) "q1" none none
      failing_impls 0 search_request failing_search "NotFoundError" (by decide) (by decide)
      rfl rfl
  refine ⟨hlen, ?_⟩
  rw [hres]
  rfl

end RagChatbot
